import Mathlib

/-!
Verification of the voyana-backend geospatial core against its specification.

The development shallowly embeds the two Haversine distance functions, the tour
metrics calculator (`app/services/tour_calculator.py`) and the proximity /
neighborhood grouping logic of the `nearby_tours` handler (`app/api/tours.py`).
Python floats are modelled as real numbers; Python `None` as `Option`;
Python truthiness of an optional float (`if not x`) is `none` or `some 0`.
-/

namespace Voyana

noncomputable section

/-- Models Python `math.radians`: degrees to radians. -/
def radians (x : ℝ) : ℝ := x * Real.pi / 180

/-- Models Python `math.atan2 y x` (C convention, on exact reals: there is no
signed zero, so `atan2 0 x = 0` for `x = 0`). -/
def atan2 (y x : ℝ) : ℝ :=
  if 0 < x then Real.arctan (y / x)
  else if x < 0 then
    (if 0 ≤ y then Real.arctan (y / x) + Real.pi else Real.arctan (y / x) - Real.pi)
  else if 0 < y then Real.pi / 2
  else if y < 0 then -(Real.pi / 2)
  else 0

/-- Embeds `haversine_distance` from `app/services/tour_calculator.py`:
Haversine great-circle distance in meters with Earth radius 6,371,000 m,
using `c = 2 * atan2(sqrt a, sqrt (1 - a))`. -/
def haversine_distance (lat1 lon1 lat2 lon2 : ℝ) : ℝ :=
  let R : ℝ := 6371000
  let lat1_rad := radians lat1
  let lat2_rad := radians lat2
  let delta_lat := radians (lat2 - lat1)
  let delta_lon := radians (lon2 - lon1)
  let a := Real.sin (delta_lat / 2) ^ 2 +
    Real.cos lat1_rad * Real.cos lat2_rad * Real.sin (delta_lon / 2) ^ 2
  let c := 2 * atan2 (Real.sqrt a) (Real.sqrt (1 - a))
  R * c

/-- Embeds `calculate_distance` from `app/api/tours.py`: the same Haversine
formula but with `c = 2 * asin(sqrt a)`, returning `c * r`. -/
def calculate_distance (lat1 lon1 lat2 lon2 : ℝ) : ℝ :=
  let lat1r := radians lat1
  let lon1r := radians lon1
  let lat2r := radians lat2
  let lon2r := radians lon2
  let dlat := lat2r - lat1r
  let dlon := lon2r - lon1r
  let a := Real.sin (dlat / 2) ^ 2 +
    Real.cos lat1r * Real.cos lat2r * Real.sin (dlon / 2) ^ 2
  let c := 2 * Real.arcsin (Real.sqrt a)
  let r : ℝ := 6371000
  c * r

/-- Models Python built-in `round x` (no digits argument): round to the nearest
integer, ties to even. -/
def pyRound (x : ℝ) : ℤ :=
  if x - Int.floor x < 1 / 2 then Int.floor x
  else if 1 / 2 < x - Int.floor x then Int.floor x + 1
  else if Even (Int.floor x) then Int.floor x else Int.floor x + 1

/-- Models Python `round x 2`: round to two decimal places, ties to even. -/
def pyRound2 (x : ℝ) : ℝ := (pyRound (x * 100) : ℝ) / 100

end

/-- Embeds `count_words` from `app/services/tour_calculator.py`: Python
`text.split()` splits on runs of whitespace and drops empty tokens; the
function returns 0 on a falsy (empty) string. -/
def count_words (text : String) : ℕ :=
  if text = "" then 0
  else ((text.split (fun c => c.isWhitespace)).filter (fun w => w ≠ "")).length

/-! ### Basic facts about the embedded rounding functions -/

theorem pyRound_of_lt_half {x : ℝ} (h0 : 0 ≤ x) (h : x < 1 / 2) : pyRound x = 0 := by
  have hf : Int.floor x = 0 := by
    rw [Int.floor_eq_zero_iff]
    constructor
    · exact h0
    · linarith
  unfold pyRound
  rw [hf]
  norm_num
  intro h2
  linarith

theorem pyRound_zero : pyRound 0 = 0 :=
  pyRound_of_lt_half le_rfl (by norm_num)

theorem pyRound2_of_lt_half {x : ℝ} (h0 : 0 ≤ x) (h : x * 100 < 1 / 2) :
    pyRound2 x = 0 := by
  unfold pyRound2
  rw [pyRound_of_lt_half (by linarith) h]
  norm_num

theorem pyRound2_zero : pyRound2 0 = 0 := by
  have := @pyRound2_of_lt_half 0 le_rfl (by norm_num)
  simpa using this

theorem pyRound_ne_zero_of_one_le {x : ℝ} (h : 1 ≤ x) : pyRound x ≠ 0 := by
  have hf : (1 : ℤ) ≤ Int.floor x := by
    exact_mod_cast Int.le_floor.mpr (by exact_mod_cast h)
  unfold pyRound
  split
  · omega
  · split
    · omega
    · split <;> omega

/-! ### The Haversine `a` term and its range -/

noncomputable section

/-- The `a` term of the Haversine formula, common to `haversine_distance` and
(after linearity of `radians`) to `calculate_distance`. -/
def havA (lat1 lon1 lat2 lon2 : ℝ) : ℝ :=
  Real.sin (radians (lat2 - lat1) / 2) ^ 2 +
    Real.cos (radians lat1) * Real.cos (radians lat2) *
      Real.sin (radians (lon2 - lon1) / 2) ^ 2

end

theorem radians_sub (x y : ℝ) : radians (x - y) = radians x - radians y := by
  unfold radians; ring

/-- For all real inputs (in range or not), the Haversine `a` term lies in
`[0, 1]`, so both square roots and the arcsine are within their domains. -/
theorem havA_mem (lat1 lon1 lat2 lon2 : ℝ) :
    0 ≤ havA lat1 lon1 lat2 lon2 ∧ havA lat1 lon1 lat2 lon2 ≤ 1 := by
  unfold havA
  rw [radians_sub lat2 lat1]
  set u := radians lat1 with hu
  set v := radians lat2 with hv
  set w := radians (lon2 - lon1) with hw
  have h1 : Real.sin ((v - u) / 2) ^ 2 = 1 / 2 - Real.cos (v - u) / 2 := by
    have h := Real.sin_sq_eq_half_sub ((v - u) / 2)
    rwa [show 2 * ((v - u) / 2) = v - u by ring] at h
  have h2 : Real.sin (w / 2) ^ 2 = 1 / 2 - Real.cos w / 2 := by
    have h := Real.sin_sq_eq_half_sub (w / 2)
    rwa [show 2 * (w / 2) = w by ring] at h
  have hcos : Real.cos (v - u) =
      Real.cos v * Real.cos u + Real.sin v * Real.sin u := Real.cos_sub v u
  have p1 : Real.sin u ^ 2 + Real.cos u ^ 2 = 1 := Real.sin_sq_add_cos_sq u
  have p2 : Real.sin v ^ 2 + Real.cos v ^ 2 = 1 := Real.sin_sq_add_cos_sq v
  have cw1 : -1 ≤ Real.cos w := Real.neg_one_le_cos w
  have cw2 : Real.cos w ≤ 1 := Real.cos_le_one w
  rw [h1, h2, hcos]
  constructor
  · nlinarith [sq_nonneg (Real.sin u - Real.sin v),
      mul_nonneg (sq_nonneg (Real.cos u - Real.cos v)) (by linarith : (0:ℝ) ≤ 1 - Real.cos w),
      mul_nonneg (sq_nonneg (Real.cos u + Real.cos v)) (by linarith : (0:ℝ) ≤ 1 + Real.cos w)]
  · nlinarith [sq_nonneg (Real.sin u + Real.sin v),
      mul_nonneg (sq_nonneg (Real.cos u - Real.cos v)) (by linarith : (0:ℝ) ≤ 1 + Real.cos w),
      mul_nonneg (sq_nonneg (Real.cos u + Real.cos v)) (by linarith : (0:ℝ) ≤ 1 - Real.cos w)]

/-- On the Haversine domain `a ∈ [0, 1]`, the two-argument arctangent form of
the central angle agrees with the arcsine form. -/
theorem atan2_sqrt_eq_arcsin {a : ℝ} (h0 : 0 ≤ a) (h1 : a ≤ 1) :
    atan2 (Real.sqrt a) (Real.sqrt (1 - a)) = Real.arcsin (Real.sqrt a) := by
  rcases lt_or_eq_of_le h1 with hlt | heq
  · have hpos : 0 < Real.sqrt (1 - a) := Real.sqrt_pos.mpr (by linarith)
    unfold atan2
    rw [if_pos hpos]
    have hmem : Real.sqrt a ∈ Set.Ioo (-(1 : ℝ)) 1 := by
      constructor
      · have := Real.sqrt_nonneg a; linarith
      · exact (Real.sqrt_lt' one_pos).mpr (by linarith)
    rw [Real.arcsin_eq_arctan hmem, Real.sq_sqrt h0]
  · subst heq
    have hz : Real.sqrt (1 - 1) = 0 := by norm_num
    have ho : Real.sqrt (1 : ℝ) = 1 := Real.sqrt_one
    rw [hz, ho]
    unfold atan2
    norm_num

theorem calculate_distance_a (lat1 lon1 lat2 lon2 : ℝ) :
    calculate_distance lat1 lon1 lat2 lon2 =
      2 * Real.arcsin (Real.sqrt (havA lat1 lon1 lat2 lon2)) * 6371000 := by
  unfold calculate_distance havA
  rw [radians_sub lat2 lat1, radians_sub lon2 lon1]

theorem haversine_distance_a (lat1 lon1 lat2 lon2 : ℝ) :
    haversine_distance lat1 lon1 lat2 lon2 =
      6371000 * (2 * atan2 (Real.sqrt (havA lat1 lon1 lat2 lon2))
        (Real.sqrt (1 - havA lat1 lon1 lat2 lon2))) := by
  unfold haversine_distance havA
  rfl

theorem haversine_eq_calculate (lat1 lon1 lat2 lon2 : ℝ) :
    haversine_distance lat1 lon1 lat2 lon2 = calculate_distance lat1 lon1 lat2 lon2 := by
  obtain ⟨h0, h1⟩ := havA_mem lat1 lon1 lat2 lon2
  rw [haversine_distance_a, calculate_distance_a, atan2_sqrt_eq_arcsin h0 h1]
  ring

/-- C10: the two Haversine implementations — `haversine_distance` in the tour
calculator (`c = 2 * atan2(sqrt a, sqrt (1 - a))`) and `calculate_distance` in
the nearby-tours handler (`c = 2 * asin(sqrt a)`) — compute the same function:
for all real coordinate inputs they return equal distances in meters with
Earth radius 6,371,000 m. -/
theorem C10_haversine_implementations_agree (lat1 lon1 lat2 lon2 : ℝ) :
    haversine_distance lat1 lon1 lat2 lon2 = calculate_distance lat1 lon1 lat2 lon2 :=
  haversine_eq_calculate lat1 lon1 lat2 lon2

/-! ### Closed-form evaluations of the distance functions -/

theorem radians_zero : radians 0 = 0 := by unfold radians; ring

theorem radians_nonneg {x : ℝ} (h : 0 ≤ x) : 0 ≤ radians x := by
  unfold radians
  have hpi := Real.pi_pos
  positivity

theorem radians_le_pi {x : ℝ} (h : x ≤ 180) : radians x ≤ Real.pi := by
  unfold radians
  have hpi := Real.pi_pos
  rw [div_le_iff₀ (by norm_num : (0:ℝ) < 180)]
  nlinarith

theorem havA_self (lat lon : ℝ) : havA lat lon lat lon = 0 := by
  unfold havA
  rw [sub_self, sub_self, radians_zero]
  simp

theorem haversine_distance_self (lat lon : ℝ) :
    haversine_distance lat lon lat lon = 0 := by
  rw [haversine_distance_a, havA_self]
  rw [Real.sqrt_zero, show (1:ℝ) - 0 = 1 by norm_num, Real.sqrt_one]
  unfold atan2
  norm_num

theorem calculate_distance_self (lat lon : ℝ) :
    calculate_distance lat lon lat lon = 0 := by
  rw [calculate_distance_a, havA_self]
  rw [Real.sqrt_zero, Real.arcsin_zero]
  ring

theorem havA_meridian (lat1 lat2 lon : ℝ) :
    havA lat1 lon lat2 lon = Real.sin (radians (lat2 - lat1) / 2) ^ 2 := by
  unfold havA
  rw [sub_self, radians_zero]
  simp

/-- On a meridian (equal longitudes) with `0 ≤ lat2 - lat1 ≤ 180`, the
arcsine-form Haversine distance is exactly `R` times the radian latitude
difference. -/
theorem calculate_distance_meridian (lat1 lat2 lon : ℝ)
    (h1 : 0 ≤ lat2 - lat1) (h2 : lat2 - lat1 ≤ 180) :
    calculate_distance lat1 lon lat2 lon = radians (lat2 - lat1) * 6371000 := by
  rw [calculate_distance_a, havA_meridian]
  set t := radians (lat2 - lat1) / 2 with ht
  have ht0 : 0 ≤ t := by
    have := radians_nonneg h1
    rw [ht]; linarith
  have ht2 : t ≤ Real.pi / 2 := by
    have := radians_le_pi h2
    rw [ht]; linarith
  have hpi := Real.pi_pos
  have hsin : 0 ≤ Real.sin t :=
    Real.sin_nonneg_of_nonneg_of_le_pi ht0 (by linarith)
  rw [Real.sqrt_sq hsin, Real.arcsin_sin (by linarith) ht2]
  ring

/-- On a meridian with `0 ≤ lat2 - lat1 ≤ 180`, the arctangent-form Haversine
distance is exactly `R` times the radian latitude difference. -/
theorem haversine_distance_meridian (lat1 lat2 lon : ℝ)
    (h1 : 0 ≤ lat2 - lat1) (h2 : lat2 - lat1 ≤ 180) :
    haversine_distance lat1 lon lat2 lon = 6371000 * radians (lat2 - lat1) := by
  have heq := haversine_eq_calculate lat1 lon lat2 lon
  rw [heq, calculate_distance_meridian lat1 lat2 lon h1 h2]
  ring

/-! ### Tour metrics calculator (`app/services/tour_calculator.py`) -/

/-- Constant from the source: meters walked per minute. -/
noncomputable def WALKING_SPEED_METERS_PER_MINUTE : ℝ := 73.15

/-- Constant from the source: narration words per minute. -/
noncomputable def NARRATION_WORDS_PER_MINUTE : ℝ := 130.0

/-- Constant from the source: straight-line to city-grid multiplier. -/
noncomputable def CITY_GRID_ADJUSTMENT : ℝ := 1.2

/-- A site row: `latitude`/`longitude` are SQLAlchemy `Float` columns that a
defensive caller may still see as `None`, and `description` is a nullable
`Text` column. -/
structure Site where
  latitude : Option ℝ
  longitude : Option ℝ
  description : Option String

/-- A `tour_sites` association row: a site plus its `display_order`. -/
structure TourSite where
  display_order : ℤ
  site : Site

/-- The body of the guarded loop step of `calculate_tour_metrics`: the pair
contributes `haversine_distance` when the Python condition
`site1.latitude and site1.longitude and site2.latitude and site2.longitude`
is truthy — i.e. every coordinate is present AND nonzero (Python treats the
float `0.0` as falsy) — and `0` otherwise. -/
noncomputable def pairDistance (site1 site2 : Site) : ℝ :=
  match site1.latitude, site1.longitude, site2.latitude, site2.longitude with
  | some la1, some lo1, some la2, some lo2 =>
    if la1 ≠ 0 ∧ lo1 ≠ 0 ∧ la2 ≠ 0 ∧ lo2 ≠ 0 then
      haversine_distance la1 lo1 la2 lo2
    else 0
  | _, _, _, _ => 0

/-- The `total_distance` accumulation loop of `calculate_tour_metrics`:
`for i in range(len(sites) - 1)` summing the guarded pair contribution of
`sites[i]` and `sites[i+1]`. -/
noncomputable def totalStraightLineDistance : List Site → ℝ
  | s1 :: s2 :: rest => pairDistance s1 s2 + totalStraightLineDistance (s2 :: rest)
  | _ => 0

/-- Embeds `sorted(tour.tour_sites, key=lambda ts: ts.display_order)`:
Python `sorted` is a stable sort, embedded as insertion sort on the key. -/
def sortTourSites (l : List TourSite) : List TourSite :=
  List.insertionSort (fun a b => a.display_order ≤ b.display_order) l

/-- Embeds `sites = [ts.site for ts in tour_sites_ordered]`. -/
def sitesOf (tour_sites : List TourSite) : List Site :=
  (sortTourSites tour_sites).map TourSite.site

/-- Embeds `adjusted_distance = total_distance * CITY_GRID_ADJUSTMENT`. -/
noncomputable def adjustedDistance (sites : List Site) : ℝ :=
  totalStraightLineDistance sites * CITY_GRID_ADJUSTMENT

/-- Embeds the accumulation `total_words`: the sum of `count_words` of each
site description, where `None` (and any falsy string) is replaced by the
empty string before counting. -/
def totalWords (sites : List Site) : ℕ :=
  (sites.map (fun s => count_words (s.description.getD ("")))).sum

/-- Embeds `calculate_tour_metrics`: `(distance_meters, duration_minutes)` for
the tour's ordered site list. The source returns the float `0.0` as the
distance of an empty tour and integers otherwise; both are embedded as the
integer pair. -/
noncomputable def calculate_tour_metrics (tour_sites : List TourSite) : ℤ × ℤ :=
  if (sitesOf tour_sites).length = 0 then (0, 0)
  else
    (pyRound (adjustedDistance (sitesOf tour_sites)),
     Int.ceil (adjustedDistance (sitesOf tour_sites) / WALKING_SPEED_METERS_PER_MINUTE +
       (totalWords (sitesOf tour_sites) : ℝ) / NARRATION_WORDS_PER_MINUTE))

theorem sortTourSites_nil : sortTourSites [] = [] := rfl

theorem sortTourSites_single (ts : TourSite) : sortTourSites [ts] = [ts] := rfl

/-- C7: `calculate_tour_metrics` applied to an empty stop sequence returns
`(0, 0)`, and applied to any single-stop sequence returns distance `0`. -/
theorem C7_empty_and_single_stop :
    calculate_tour_metrics [] = (0, 0) ∧
      ∀ ts : TourSite, (calculate_tour_metrics [ts]).1 = 0 := by
  constructor
  · rfl
  · intro ts
    unfold calculate_tour_metrics
    rw [if_neg (by simp [sitesOf, sortTourSites_single])]
    have htot : totalStraightLineDistance (sitesOf [ts]) = 0 := by
      simp [sitesOf, sortTourSites_single, totalStraightLineDistance]
    have hadj : adjustedDistance (sitesOf [ts]) = 0 := by
      rw [adjustedDistance, htot, zero_mul]
    rw [hadj]
    simpa using pyRound_zero

/-- The pairwise loop sums exactly the guarded contributions of the
consecutive pairs `(sites[i], sites[i+1])`. -/
theorem totalStraightLineDistance_eq_zip : ∀ l : List Site,
    totalStraightLineDistance l =
      ((l.zip l.tail).map (fun p => pairDistance p.1 p.2)).sum
  | [] => by simp [totalStraightLineDistance]
  | [s] => by simp [totalStraightLineDistance]
  | s1 :: s2 :: rest => by
    have ih := totalStraightLineDistance_eq_zip (s2 :: rest)
    rw [show totalStraightLineDistance (s1 :: s2 :: rest) =
          pairDistance s1 s2 + totalStraightLineDistance (s2 :: rest) from rfl]
    rw [ih]
    simp

theorem sitesOf_length (tour_sites : List TourSite) :
    (sitesOf tour_sites).length = tour_sites.length := by
  simp [sitesOf, sortTourSites,
    (List.perm_insertionSort (fun a b : TourSite => a.display_order ≤ b.display_order)
      tour_sites).length_eq]

/-- C1 (amended): for every stop sequence with at least two stops,
`calculate_tour_metrics` returns
`distanceMeters = round(1.2 * D)` and
`durationMinutes = ceil((1.2 * D) / 73.15 + W / 130.0)`, where `D` is the sum
over consecutive pairs of the display-order-sorted stops of the Haversine
distance of the pair — a pair contributing only when all four coordinates are
present and nonzero (the amendment forced by Python truthiness: the claim's
"sum of Haversine distances over consecutive stop pairs" fails for stops with
a 0.0 coordinate, see the counterexample) — and `W` is the total
whitespace-token count of the stops' narration text. -/
theorem C1_metrics_formula (tour_sites : List TourSite)
    (h : 2 ≤ tour_sites.length) :
    calculate_tour_metrics tour_sites =
      (pyRound (CITY_GRID_ADJUSTMENT *
         (((sitesOf tour_sites).zip (sitesOf tour_sites).tail).map
            (fun p => pairDistance p.1 p.2)).sum),
       Int.ceil (CITY_GRID_ADJUSTMENT *
         (((sitesOf tour_sites).zip (sitesOf tour_sites).tail).map
            (fun p => pairDistance p.1 p.2)).sum / WALKING_SPEED_METERS_PER_MINUTE +
         (totalWords (sitesOf tour_sites) : ℝ) / NARRATION_WORDS_PER_MINUTE)) := by
  have hlen : (sitesOf tour_sites).length ≠ 0 := by
    rw [sitesOf_length]
    omega
  unfold calculate_tour_metrics
  rw [if_neg hlen]
  rw [adjustedDistance, totalStraightLineDistance_eq_zip, mul_comm]

/-- Witness for C1: two stops (orders 1 and 2) at the same nonzero position
with no narration; both the code and the amended formula give `(0, 0)`. -/
theorem C1_metrics_formula_witness :
    2 ≤ ([⟨1, ⟨some 40, some 70, none⟩⟩, ⟨2, ⟨some 40, some 70, none⟩⟩] :
        List TourSite).length ∧
    calculate_tour_metrics
        [⟨1, ⟨some 40, some 70, none⟩⟩, ⟨2, ⟨some 40, some 70, none⟩⟩] =
      (pyRound (CITY_GRID_ADJUSTMENT *
         (((sitesOf [⟨1, ⟨some 40, some 70, none⟩⟩, ⟨2, ⟨some 40, some 70, none⟩⟩]).zip
             (sitesOf [⟨1, ⟨some 40, some 70, none⟩⟩,
               ⟨2, ⟨some 40, some 70, none⟩⟩]).tail).map
            (fun p => pairDistance p.1 p.2)).sum),
       Int.ceil (CITY_GRID_ADJUSTMENT *
         (((sitesOf [⟨1, ⟨some 40, some 70, none⟩⟩, ⟨2, ⟨some 40, some 70, none⟩⟩]).zip
             (sitesOf [⟨1, ⟨some 40, some 70, none⟩⟩,
               ⟨2, ⟨some 40, some 70, none⟩⟩]).tail).map
            (fun p => pairDistance p.1 p.2)).sum / WALKING_SPEED_METERS_PER_MINUTE +
         (totalWords (sitesOf [⟨1, ⟨some 40, some 70, none⟩⟩,
            ⟨2, ⟨some 40, some 70, none⟩⟩]) : ℝ) / NARRATION_WORDS_PER_MINUTE)) :=
  ⟨by norm_num, C1_metrics_formula _ (by norm_num)⟩

/-- C1 counterexample: both stops of this two-stop tour have non-null
coordinates, so the claim as stated demands
`distanceMeters = round(1.2 * haversine(0, 20, 20, 20))`, which is nonzero;
the code returns `0` because Python truthiness treats the first stop's
latitude `0.0` as a missing coordinate and skips the pair. -/
theorem C1_counterexample :
    (calculate_tour_metrics
        [⟨1, ⟨some 0, some 20, none⟩⟩, ⟨2, ⟨some 20, some 20, none⟩⟩]).1 = 0 ∧
    pyRound (CITY_GRID_ADJUSTMENT * haversine_distance 0 20 20 20) ≠ 0 := by
  constructor
  · have hsort : sortTourSites
        [⟨1, ⟨some 0, some 20, none⟩⟩, ⟨2, ⟨some 20, some 20, none⟩⟩] =
        [⟨1, ⟨some 0, some 20, none⟩⟩, ⟨2, ⟨some 20, some 20, none⟩⟩] := by
      simp [sortTourSites, List.insertionSort, List.orderedInsert]
    have hpair : pairDistance ⟨some 0, some 20, none⟩ ⟨some 20, some 20, none⟩ = 0 := by
      simp [pairDistance]
    unfold calculate_tour_metrics
    rw [if_neg (by simp [sitesOf, hsort])]
    have htot : totalStraightLineDistance
        (sitesOf [⟨1, ⟨some 0, some 20, none⟩⟩, ⟨2, ⟨some 20, some 20, none⟩⟩]) = 0 := by
      simp only [sitesOf, hsort, List.map_cons, List.map_nil]
      rw [show totalStraightLineDistance
            [⟨some 0, some 20, none⟩, ⟨some 20, some 20, none⟩] =
          pairDistance ⟨some 0, some 20, none⟩ ⟨some 20, some 20, none⟩ +
            totalStraightLineDistance [⟨some 20, some 20, none⟩] from rfl]
      rw [hpair]
      simp [totalStraightLineDistance]
    rw [adjustedDistance, htot, zero_mul]
    simpa using pyRound_zero
  · have hm : haversine_distance 0 20 20 20 = 6371000 * radians 20 := by
      have := haversine_distance_meridian 0 20 20
        (by norm_num) (by norm_num)
      simpa using this
    rw [hm]
    apply pyRound_ne_zero_of_one_le
    have hpi := Real.pi_gt_three
    unfold CITY_GRID_ADJUSTMENT radians
    nlinarith

/-- C4 (code evaluation at the failing input): the pair below has non-null
latitudes and longitudes on both sides, so the claim says it contributes its
Haversine distance — which is positive — yet the code's guarded loop
contributes `0`, because Python truthiness treats the latitude `0.0` as
missing (contradicting the source comment "Both sites must have coordinates"
and the spec's "non-null coordinates"). -/
theorem C4_code_eval_at_failing_input :
    (⟨some 0, some 10, none⟩ : Site).latitude ≠ none ∧
    (⟨some 0, some 10, none⟩ : Site).longitude ≠ none ∧
    (⟨some 10, some 10, none⟩ : Site).latitude ≠ none ∧
    (⟨some 10, some 10, none⟩ : Site).longitude ≠ none ∧
    pairDistance ⟨some 0, some 10, none⟩ ⟨some 10, some 10, none⟩ = 0 ∧
    0 < haversine_distance 0 10 10 10 := by
  refine ⟨by simp, by simp, by simp, by simp, ?_, ?_⟩
  · simp [pairDistance]
  · have hm : haversine_distance 0 10 10 10 = 6371000 * radians 10 := by
      have := haversine_distance_meridian 0 10 10
        (by norm_num) (by norm_num)
      simpa using this
    rw [hm]
    have hpi := Real.pi_pos
    unfold radians
    positivity

/-! ### Proximity / neighborhood grouping (`nearby_tours` in `app/api/tours.py`) -/

/-- A tour row as consumed by the nearby-tours handler: nullable coordinates
and a nullable neighborhood column. -/
structure TourRec where
  id : ℕ
  latitude : Option ℝ
  longitude : Option ℝ
  neighborhood : Option String

/-- An element of the handler's `tours_with_distance` list: the tour, its
rounded distance, and its neighborhood label. -/
structure TourEntry where
  tour : TourRec
  distance : ℝ
  neighborhood : String

/-- Models the expression `tour.neighborhood or` sentinel: Python `or`
substitutes the sentinel label for `None` and for the falsy empty string. -/
def labelOf (t : TourRec) : String :=
  match t.neighborhood with
  | none => "Unspecified"
  | some s => if s = "" then "Unspecified" else s

/-- One iteration of the handler's filtering loop: skip when
`not tour.latitude or not tour.longitude` (truthiness: absent OR equal to
0.0), skip when `max_distance is not None and distance > max_distance`
(comparing the unrounded distance), else append an entry whose stored
distance is `round(distance, 2)`. -/
noncomputable def keepTour (lat lon : ℝ) (max_distance : Option ℝ) (t : TourRec) :
    Option TourEntry :=
  match t.latitude, t.longitude with
  | some tlat, some tlon =>
    if tlat = 0 ∨ tlon = 0 then none
    else
      match max_distance with
      | some m =>
        if m < calculate_distance lat lon tlat tlon then none
        else some ⟨t, pyRound2 (calculate_distance lat lon tlat tlon), labelOf t⟩
      | none => some ⟨t, pyRound2 (calculate_distance lat lon tlat tlon), labelOf t⟩
  | _, _ => none

/-- The handler's `tours_with_distance` list before sorting. -/
noncomputable def toursWithDistance (lat lon : ℝ) (all_tours : List TourRec)
    (max_distance : Option ℝ) : List TourEntry :=
  all_tours.filterMap (keepTour lat lon max_distance)

/-- Embeds the in-place `tours_with_distance.sort` keyed on the stored
(rounded) distance: Python's sort is stable, embedded as insertion sort. -/
noncomputable def sortedTours (lat lon : ℝ) (all_tours : List TourRec)
    (max_distance : Option ℝ) : List TourEntry :=
  List.insertionSort (fun a b => a.distance ≤ b.distance)
    (toursWithDistance lat lon all_tours max_distance)

/-- The `seen_neighborhoods` loop: walk the labels, emitting each one the
first time it is seen (the seen set is carried as a list). -/
def firstSeenAux : List String → List String → List String
  | [], _ => []
  | n :: rest, seen =>
    if n ∈ seen then firstSeenAux rest seen
    else n :: firstSeenAux rest (n :: seen)

/-- Embeds `neighborhoods_ordered`: the distinct labels of the sorted tour list in
order of first appearance. -/
def neighborhoodsOrderedOf (entries : List TourEntry) : List String :=
  firstSeenAux (entries.map TourEntry.neighborhood) []

/-- Python list slice `l[start:stop]` for nonnegative bounds. -/
def pySlice {α : Type*} (l : List α) (start stop : ℕ) : List α :=
  (l.take stop).drop start

/-- The fields of the handler's JSON payload that this core computes. -/
structure NearbyResult where
  tours : List TourEntry
  neighborhoods : List String
  totalNeighborhoods : ℕ
  hasMore : Bool

/-- Embeds the proximity-grouping core of the `nearby_tours` handler:
filter by coordinates and `max_distance`, sort by rounded distance, list the
neighborhoods in first-seen order, page over whole neighborhoods
(`selected = ordered[offset : offset + count]`), keep only tours of selected
neighborhoods, and report `hasMore = (offset + count) < total`. -/
noncomputable def nearby_tours (lat lon : ℝ)
    (neighborhood_count neighborhood_offset : ℕ) (max_distance : Option ℝ)
    (all_tours : List TourRec) : NearbyResult :=
  { tours := (sortedTours lat lon all_tours max_distance).filter
      (fun e => e.neighborhood ∈
        pySlice (neighborhoodsOrderedOf (sortedTours lat lon all_tours max_distance))
          neighborhood_offset (neighborhood_offset + neighborhood_count))
    neighborhoods :=
      pySlice (neighborhoodsOrderedOf (sortedTours lat lon all_tours max_distance))
        neighborhood_offset (neighborhood_offset + neighborhood_count)
    totalNeighborhoods :=
      (neighborhoodsOrderedOf (sortedTours lat lon all_tours max_distance)).length
    hasMore := decide (neighborhood_offset + neighborhood_count <
      (neighborhoodsOrderedOf (sortedTours lat lon all_tours max_distance)).length) }

/-- C5 (code evaluation at the failing input): this candidate has a non-null
position — latitude `some 0.0`, longitude `some 50.0` — and no
`max_distance` bound is supplied, so the claim says it must be kept; the
code's loop discards it because Python truthiness treats latitude `0.0` as a
missing coordinate (contradicting the source comment "Skip tours without
coordinates"). -/
theorem C5_code_eval_at_failing_input :
    (⟨1, some 0, some 50, some ("Chelsea")⟩ : TourRec).latitude ≠ none ∧
    (⟨1, some 0, some 50, some ("Chelsea")⟩ : TourRec).longitude ≠ none ∧
    toursWithDistance 1 50 [⟨1, some 0, some 50, some ("Chelsea")⟩] none = [] := by
  refine ⟨by simp, by simp, ?_⟩
  simp [toursWithDistance, keepTour]

/-- C6: every tour in the returned tours list has its neighborhood label
contained in the returned neighborhoods list; no tour from an unselected
neighborhood is ever returned. -/
theorem C6_tours_within_selected_neighborhoods (lat lon : ℝ)
    (c o : ℕ) (maxd : Option ℝ) (all : List TourRec) :
    List.Forall
      (fun e => e.neighborhood ∈ (nearby_tours lat lon c o maxd all).neighborhoods)
      (nearby_tours lat lon c o maxd all).tours := by
  rw [List.forall_iff_forall_mem]
  intro e he
  simp only [nearby_tours] at he ⊢
  have hmem := List.mem_filter.mp he
  exact of_decide_eq_true hmem.2

theorem pySlice_eq_drop_take {α : Type*} (o c : ℕ) (l : List α) :
    pySlice l o (o + c) = (l.drop o).take c := by
  unfold pySlice
  induction l generalizing o with
  | nil => simp
  | cons a l ih =>
    cases o with
    | zero => simp
    | succ o2 =>
      have h1 : o2 + 1 + c = (o2 + c) + 1 := by omega
      rw [h1]
      simpa using ih o2

/-- C3: for every `neighborhood_count ≥ 1` and offset, the result's
neighborhoods are the slice `ordered[offset : offset + count]` of the
first-seen neighborhood list, `hasMore = (offset + count) < total`, and an
offset at or beyond the total yields an empty neighborhood selection, an
empty tours list, and `hasMore = false`. -/
theorem C3_neighborhood_pagination (lat lon : ℝ) (maxd : Option ℝ)
    (all : List TourRec) (c o : ℕ) (hc : 1 ≤ c) :
    (nearby_tours lat lon c o maxd all).neighborhoods =
      ((neighborhoodsOrderedOf (sortedTours lat lon all maxd)).drop o).take c ∧
    (nearby_tours lat lon c o maxd all).hasMore =
      decide (o + c < (neighborhoodsOrderedOf (sortedTours lat lon all maxd)).length) ∧
    ((neighborhoodsOrderedOf (sortedTours lat lon all maxd)).length ≤ o →
      (nearby_tours lat lon c o maxd all).neighborhoods = [] ∧
      (nearby_tours lat lon c o maxd all).tours = [] ∧
      (nearby_tours lat lon c o maxd all).hasMore = false) := by
  refine ⟨?_, rfl, ?_⟩
  · simp only [nearby_tours]
    exact pySlice_eq_drop_take o c _
  · intro hbeyond
    have hnil : pySlice (neighborhoodsOrderedOf (sortedTours lat lon all maxd))
        o (o + c) = [] := by
      rw [pySlice_eq_drop_take]
      rw [List.drop_eq_nil_of_le hbeyond]
      simp
    refine ⟨?_, ?_, ?_⟩
    · simp only [nearby_tours]
      exact hnil
    · simp only [nearby_tours, hnil]
      simp
    · simp only [nearby_tours]
      exact decide_eq_false (by omega)

/-- Witness for C3 at a concrete input: one page of size 1, offset 0, no
candidates. -/
theorem C3_neighborhood_pagination_witness :
    1 ≤ 1 ∧
    ((nearby_tours 0 0 1 0 none []).neighborhoods =
      ((neighborhoodsOrderedOf (sortedTours 0 0 [] none)).drop 0).take 1 ∧
    (nearby_tours 0 0 1 0 none []).hasMore =
      decide (0 + 1 < (neighborhoodsOrderedOf (sortedTours 0 0 [] none)).length) ∧
    ((neighborhoodsOrderedOf (sortedTours 0 0 [] none)).length ≤ 0 →
      (nearby_tours 0 0 1 0 none []).neighborhoods = [] ∧
      (nearby_tours 0 0 1 0 none []).tours = [] ∧
      (nearby_tours 0 0 1 0 none []).hasMore = false)) :=
  ⟨le_refl 1, C3_neighborhood_pagination 0 0 none [] 1 0 (le_refl 1)⟩

/-- Specification-side description of "the distinct labels in order of first
appearance": keep each head and drop its later duplicates. -/
def distinctFirst : List String → List String
  | [] => []
  | n :: rest => n :: distinctFirst (rest.filter (fun m => m ≠ n))
termination_by l => l.length
decreasing_by
  simp only [List.length_cons]
  exact Nat.lt_succ_of_le (List.length_filter_le _ _)

theorem firstSeenAux_eq_distinctFirst : ∀ l seen : List String,
    firstSeenAux l seen = distinctFirst (l.filter (fun m => m ∉ seen))
  | [], seen => by simp [firstSeenAux, distinctFirst]
  | n :: rest, seen => by
    by_cases h : n ∈ seen
    · rw [show firstSeenAux (n :: rest) seen =
          (if n ∈ seen then firstSeenAux rest seen
           else n :: firstSeenAux rest (n :: seen)) from rfl]
      rw [if_pos h, firstSeenAux_eq_distinctFirst rest seen]
      congr 1
      rw [List.filter_cons]
      simp [h]
    · rw [show firstSeenAux (n :: rest) seen =
          (if n ∈ seen then firstSeenAux rest seen
           else n :: firstSeenAux rest (n :: seen)) from rfl]
      rw [if_neg h, firstSeenAux_eq_distinctFirst rest (n :: seen)]
      have hr : (n :: rest).filter (fun m => m ∉ seen) =
          n :: rest.filter (fun m => m ∉ seen) := by
        rw [List.filter_cons]
        simp [h]
      rw [hr]
      rw [show distinctFirst (n :: rest.filter (fun m => m ∉ seen)) =
          n :: distinctFirst ((rest.filter (fun m => m ∉ seen)).filter
            (fun m => m ≠ n)) from by rw [distinctFirst]]
      congr 1
      congr 1
      rw [List.filter_filter]
      apply List.filter_congr
      intro a _
      by_cases h1 : a = n <;> by_cases h2 : a ∈ seen <;>
        simp [h1, h2, List.mem_cons]

/-- The handler's seen-set loop computes exactly the distinct labels in order
of first appearance. -/
theorem neighborhoodsOrderedOf_eq_distinctFirst (entries : List TourEntry) :
    neighborhoodsOrderedOf entries =
      distinctFirst (entries.map TourEntry.neighborhood) := by
  unfold neighborhoodsOrderedOf
  rw [firstSeenAux_eq_distinctFirst]
  congr 1
  apply List.filter_eq_self.mpr
  intro a _
  simp

/-- The sorted tour list is pairwise ordered by the stored distance. -/
theorem sortedTours_pairwise (lat lon : ℝ) (all : List TourRec)
    (maxd : Option ℝ) :
    List.Pairwise (fun a b : TourEntry => a.distance ≤ b.distance)
      (sortedTours lat lon all maxd) := by
  haveI h1 : IsTotal TourEntry (fun a b => a.distance ≤ b.distance) :=
    ⟨fun a b => le_total _ _⟩
  haveI h2 : IsTrans TourEntry (fun a b => a.distance ≤ b.distance) :=
    ⟨fun a b c hab hbc => le_trans hab hbc⟩
  exact List.sorted_insertionSort _ _

/-- Order-preservation of Python's stable sort for entries with equal stored
distance. -/
theorem sortedTours_stable (lat lon : ℝ) (all : List TourRec)
    (maxd : Option ℝ) (e1 e2 : TourEntry)
    (hsub : List.Sublist [e1, e2] (toursWithDistance lat lon all maxd))
    (heq : e1.distance = e2.distance) :
    List.Sublist [e1, e2] (sortedTours lat lon all maxd) :=
  List.pair_sublist_insertionSort (le_of_eq heq) hsub

/-- Every kept entry stores the two-decimal rounding of the true distance
from the origin to its tour's coordinates. -/
theorem mem_toursWithDistance {lat lon : ℝ} {all : List TourRec}
    {maxd : Option ℝ} {e : TourEntry}
    (he : e ∈ toursWithDistance lat lon all maxd) :
    ∃ tlat tlon, e.tour.latitude = some tlat ∧ e.tour.longitude = some tlon ∧
      e.distance = pyRound2 (calculate_distance lat lon tlat tlon) := by
  obtain ⟨t, _, hk⟩ := List.mem_filterMap.mp he
  unfold keepTour at hk
  rcases hlt : t.latitude with _ | tlat
  · rw [hlt] at hk
    simp at hk
  rcases hln : t.longitude with _ | tlon
  · rw [hlt, hln] at hk
    simp at hk
  rw [hlt, hln] at hk
  rcases maxd with _ | m
  · have hk2 : (if tlat = 0 ∨ tlon = 0 then (none : Option TourEntry)
        else some ⟨t, pyRound2 (calculate_distance lat lon tlat tlon), labelOf t⟩) =
        some e := hk
    by_cases hz : tlat = 0 ∨ tlon = 0
    · rw [if_pos hz] at hk2
      simp at hk2
    · rw [if_neg hz, Option.some.injEq] at hk2
      refine ⟨tlat, tlon, ?_⟩
      rw [← hk2]
      exact ⟨hlt, hln, rfl⟩
  · have hk2 : (if tlat = 0 ∨ tlon = 0 then (none : Option TourEntry)
        else if m < calculate_distance lat lon tlat tlon then none
        else some ⟨t, pyRound2 (calculate_distance lat lon tlat tlon), labelOf t⟩) =
        some e := hk
    by_cases hz : tlat = 0 ∨ tlon = 0
    · rw [if_pos hz] at hk2
      simp at hk2
    · rw [if_neg hz] at hk2
      by_cases hmd : m < calculate_distance lat lon tlat tlon
      · rw [if_pos hmd] at hk2
        simp at hk2
      · rw [if_neg hmd, Option.some.injEq] at hk2
        refine ⟨tlat, tlon, ?_⟩
        rw [← hk2]
        exact ⟨hlt, hln, rfl⟩

/-! ### Concrete evaluations for the grouping claims -/

theorem calc_tiny :
    calculate_distance 1 50 (1 + 1/1000000000) 50 =
      radians (1/1000000000) * 6371000 := by
  have h := calculate_distance_meridian 1 (1 + 1/1000000000) 50
    (by norm_num) (by norm_num)
  rwa [show (1 + 1/1000000000 : ℝ) - 1 = 1/1000000000 by norm_num] at h

theorem tiny_pos : 0 < radians (1/1000000000) * 6371000 := by
  have hpi := Real.pi_pos
  unfold radians
  positivity

theorem tiny_round2 : pyRound2 (radians (1/1000000000) * 6371000) = 0 := by
  apply pyRound2_of_lt_half
  · have hpi := Real.pi_pos
    unfold radians
    positivity
  · have hpi := Real.pi_lt_d2
    have hpi0 := Real.pi_pos
    unfold radians
    nlinarith

theorem keepTour_none_eval {lat lon tlat tlon : ℝ} {t : TourRec}
    (h1 : t.latitude = some tlat) (h2 : t.longitude = some tlon)
    (h3 : ¬(tlat = 0 ∨ tlon = 0)) :
    keepTour lat lon none t =
      some ⟨t, pyRound2 (calculate_distance lat lon tlat tlon), labelOf t⟩ := by
  unfold keepTour
  rw [h1, h2]
  show (if tlat = 0 ∨ tlon = 0 then (none : Option TourEntry)
    else some ⟨t, pyRound2 (calculate_distance lat lon tlat tlon), labelOf t⟩) =
    some ⟨t, pyRound2 (calculate_distance lat lon tlat tlon), labelOf t⟩
  exact if_neg h3

theorem keepTour_eval_self_point (lat lon : ℝ) (t : TourRec) (s : String)
    (hlt : t.latitude = some lat) (hln : t.longitude = some lon)
    (hz : ¬(lat = 0 ∨ lon = 0)) (hs : labelOf t = s) :
    keepTour lat lon none t = some ⟨t, 0, s⟩ := by
  rw [keepTour_none_eval hlt hln hz, calculate_distance_self, pyRound2_zero, hs]

theorem keepTour_eval_tiny_point (t : TourRec) (s : String)
    (hlt : t.latitude = some (1 + 1/1000000000)) (hln : t.longitude = some 50)
    (hs : labelOf t = s) :
    keepTour 1 50 none t = some ⟨t, 0, s⟩ := by
  rw [keepTour_none_eval hlt hln (by norm_num), calc_tiny, tiny_round2, hs]

/-- C2 (amended): the kept candidates are sorted ascending by the STORED
distance — the true distance rounded to two decimals, see C9 — with a stable
tie-break on that stored value (entries with equal stored distance retain
their original relative order), and the full neighborhood list consists of
the distinct labels in order of first appearance in that sorted tour list.
The amendment forced by the counterexample: sorting is by the rounded stored
distance, not by the true distance to the origin. -/
theorem C2_sorted_stable_first_seen (lat lon : ℝ) (all : List TourRec)
    (maxd : Option ℝ) :
    List.Pairwise (fun a b : TourEntry => a.distance ≤ b.distance)
      (sortedTours lat lon all maxd) ∧
    (∀ e1 e2 : TourEntry,
      List.Sublist [e1, e2] (toursWithDistance lat lon all maxd) →
      e1.distance = e2.distance →
      List.Sublist [e1, e2] (sortedTours lat lon all maxd)) ∧
    neighborhoodsOrderedOf (sortedTours lat lon all maxd) =
      distinctFirst ((sortedTours lat lon all maxd).map TourEntry.neighborhood) := by
  refine ⟨sortedTours_pairwise lat lon all maxd, ?_, ?_⟩
  · intro e1 e2 hsub heq
    exact sortedTours_stable lat lon all maxd e1 e2 hsub heq
  · exact neighborhoodsOrderedOf_eq_distinctFirst _

theorem C2w_kept_eval :
    toursWithDistance 1 50
        [⟨3, some 1, some 50, some ("SoHo")⟩,
         ⟨4, some 1, some 50, some ("Tribeca")⟩] none =
      [⟨⟨3, some 1, some 50, some ("SoHo")⟩, 0, "SoHo"⟩,
       ⟨⟨4, some 1, some 50, some ("Tribeca")⟩, 0, "Tribeca"⟩] := by
  have h1 := keepTour_eval_self_point 1 50 ⟨3, some 1, some 50, some ("SoHo")⟩
    "SoHo" rfl rfl (by norm_num) (by simp [labelOf])
  have h2 := keepTour_eval_self_point 1 50 ⟨4, some 1, some 50, some ("Tribeca")⟩
    "Tribeca" rfl rfl (by norm_num) (by simp [labelOf])
  unfold toursWithDistance
  rw [List.filterMap_cons_some h1, List.filterMap_cons_some h2,
    List.filterMap_nil]

/-- Witness for C2 at a concrete input: two equidistant candidates keep their
input order in the sorted output. -/
theorem C2_sorted_stable_first_seen_witness :
    List.Sublist
      [⟨⟨3, some 1, some 50, some ("SoHo")⟩, 0, "SoHo"⟩,
       ⟨⟨4, some 1, some 50, some ("Tribeca")⟩, 0, "Tribeca"⟩]
      (toursWithDistance 1 50
        [⟨3, some 1, some 50, some ("SoHo")⟩,
         ⟨4, some 1, some 50, some ("Tribeca")⟩] none) ∧
    (⟨⟨3, some 1, some 50, some ("SoHo")⟩, 0, "SoHo"⟩ : TourEntry).distance =
      (⟨⟨4, some 1, some 50, some ("Tribeca")⟩, 0, "Tribeca"⟩ : TourEntry).distance ∧
    List.Sublist
      [⟨⟨3, some 1, some 50, some ("SoHo")⟩, 0, "SoHo"⟩,
       ⟨⟨4, some 1, some 50, some ("Tribeca")⟩, 0, "Tribeca"⟩]
      (sortedTours 1 50
        [⟨3, some 1, some 50, some ("SoHo")⟩,
         ⟨4, some 1, some 50, some ("Tribeca")⟩] none) := by
  have hsub : List.Sublist
      [⟨⟨3, some 1, some 50, some ("SoHo")⟩, 0, "SoHo"⟩,
       ⟨⟨4, some 1, some 50, some ("Tribeca")⟩, 0, "Tribeca"⟩]
      (toursWithDistance 1 50
        [⟨3, some 1, some 50, some ("SoHo")⟩,
         ⟨4, some 1, some 50, some ("Tribeca")⟩] none) := by
    rw [C2w_kept_eval]
  exact ⟨hsub, rfl,
    (C2_sorted_stable_first_seen 1 50
      [⟨3, some 1, some 50, some ("SoHo")⟩,
       ⟨4, some 1, some 50, some ("Tribeca")⟩] none).2.1 _ _ hsub rfl⟩

theorem C2c_kept_eval :
    toursWithDistance 1 50
        [⟨1, some (1 + 1/1000000000), some 50, some ("Uptown")⟩,
         ⟨2, some 1, some 50, some ("Downtown")⟩] none =
      [⟨⟨1, some (1 + 1/1000000000), some 50, some ("Uptown")⟩, 0, "Uptown"⟩,
       ⟨⟨2, some 1, some 50, some ("Downtown")⟩, 0, "Downtown"⟩] := by
  have h1 := keepTour_eval_tiny_point
    ⟨1, some (1 + 1/1000000000), some 50, some ("Uptown")⟩ "Uptown" rfl rfl
    (by simp [labelOf])
  have h2 := keepTour_eval_self_point 1 50 ⟨2, some 1, some 50, some ("Downtown")⟩
    "Downtown" rfl rfl (by norm_num) (by simp [labelOf])
  unfold toursWithDistance
  rw [List.filterMap_cons_some h1, List.filterMap_cons_some h2,
    List.filterMap_nil]

/-- C2 counterexample: the first candidate is strictly farther from the
origin (by true Haversine distance) than the second, but both distances round
to 0.00, so the code returns them in input order — farther first. The output
list is therefore not sorted by distance to the origin ascending, refuting
the claim read over true distances. -/
theorem C2_counterexample :
    sortedTours 1 50
        [⟨1, some (1 + 1/1000000000), some 50, some ("Uptown")⟩,
         ⟨2, some 1, some 50, some ("Downtown")⟩] none =
      [⟨⟨1, some (1 + 1/1000000000), some 50, some ("Uptown")⟩, 0, "Uptown"⟩,
       ⟨⟨2, some 1, some 50, some ("Downtown")⟩, 0, "Downtown"⟩] ∧
    calculate_distance 1 50 1 50 <
      calculate_distance 1 50 (1 + 1/1000000000) 50 := by
  constructor
  · unfold sortedTours
    rw [C2c_kept_eval]
    simp [List.insertionSort, List.orderedInsert]
  · rw [calculate_distance_self, calc_tiny]
    exact tiny_pos

/-- C9: every kept entry's stored distance is the true distance to the origin
rounded to two decimal places (that value is what the sort orders by and what
is returned to the caller), and consequently two kept candidates whose true
distances differ but round to the same value keep their original input order
in the sorted output. -/
theorem C9_rounding_before_sort (lat lon : ℝ) (all : List TourRec)
    (maxd : Option ℝ) :
    (∀ e ∈ toursWithDistance lat lon all maxd,
      ∃ tlat tlon, e.tour.latitude = some tlat ∧ e.tour.longitude = some tlon ∧
        e.distance = pyRound2 (calculate_distance lat lon tlat tlon)) ∧
    (∀ e1 e2 : TourEntry, ∀ la1 lo1 la2 lo2 : ℝ,
      e1.tour.latitude = some la1 → e1.tour.longitude = some lo1 →
      e2.tour.latitude = some la2 → e2.tour.longitude = some lo2 →
      calculate_distance lat lon la1 lo1 ≠ calculate_distance lat lon la2 lo2 →
      pyRound2 (calculate_distance lat lon la1 lo1) =
        pyRound2 (calculate_distance lat lon la2 lo2) →
      List.Sublist [e1, e2] (toursWithDistance lat lon all maxd) →
      List.Sublist [e1, e2] (sortedTours lat lon all maxd)) := by
  constructor
  · intro e he
    exact mem_toursWithDistance he
  · intro e1 e2 la1 lo1 la2 lo2 h1a h1o h2a h2o _ hround hsub
    have hm1 : e1 ∈ toursWithDistance lat lon all maxd :=
      hsub.subset (by simp)
    have hm2 : e2 ∈ toursWithDistance lat lon all maxd :=
      hsub.subset (by simp)
    obtain ⟨t1, u1, ht1, hu1, hd1⟩ := mem_toursWithDistance hm1
    obtain ⟨t2, u2, ht2, hu2, hd2⟩ := mem_toursWithDistance hm2
    have e1t : t1 = la1 := by
      rw [h1a] at ht1
      exact (Option.some.injEq _ _).mp ht1.symm
    have e1u : u1 = lo1 := by
      rw [h1o] at hu1
      exact (Option.some.injEq _ _).mp hu1.symm
    have e2t : t2 = la2 := by
      rw [h2a] at ht2
      exact (Option.some.injEq _ _).mp ht2.symm
    have e2u : u2 = lo2 := by
      rw [h2o] at hu2
      exact (Option.some.injEq _ _).mp hu2.symm
    have heq : e1.distance = e2.distance := by
      rw [hd1, hd2, e1t, e1u, e2t, e2u, hround]
    exact sortedTours_stable lat lon all maxd e1 e2 hsub heq

theorem C9w_kept_eval :
    toursWithDistance 1 50
        [⟨5, some 1, some 50, some ("Astoria")⟩,
         ⟨6, some (1 + 1/1000000000), some 50, some ("Flushing")⟩] none =
      [⟨⟨5, some 1, some 50, some ("Astoria")⟩, 0, "Astoria"⟩,
       ⟨⟨6, some (1 + 1/1000000000), some 50, some ("Flushing")⟩, 0, "Flushing"⟩] := by
  have h1 := keepTour_eval_self_point 1 50 ⟨5, some 1, some 50, some ("Astoria")⟩
    "Astoria" rfl rfl (by norm_num) (by simp [labelOf])
  have h2 := keepTour_eval_tiny_point
    ⟨6, some (1 + 1/1000000000), some 50, some ("Flushing")⟩ "Flushing" rfl rfl
    (by simp [labelOf])
  unfold toursWithDistance
  rw [List.filterMap_cons_some h1, List.filterMap_cons_some h2,
    List.filterMap_nil]

/-- Witness for C9 at a concrete input: two candidates whose true distances
to the origin differ (0 versus about 0.11 mm) but both round to 0.00 keep
their input order in the sorted output. -/
theorem C9_rounding_before_sort_witness :
    calculate_distance 1 50 1 50 ≠ calculate_distance 1 50 (1 + 1/1000000000) 50 ∧
    pyRound2 (calculate_distance 1 50 1 50) =
      pyRound2 (calculate_distance 1 50 (1 + 1/1000000000) 50) ∧
    List.Sublist
      [⟨⟨5, some 1, some 50, some ("Astoria")⟩, 0, "Astoria"⟩,
       ⟨⟨6, some (1 + 1/1000000000), some 50, some ("Flushing")⟩, 0, "Flushing"⟩]
      (sortedTours 1 50
        [⟨5, some 1, some 50, some ("Astoria")⟩,
         ⟨6, some (1 + 1/1000000000), some 50, some ("Flushing")⟩] none) := by
  have hne : calculate_distance 1 50 1 50 ≠
      calculate_distance 1 50 (1 + 1/1000000000) 50 := by
    rw [calculate_distance_self, calc_tiny]
    exact ne_of_lt tiny_pos
  have hround : pyRound2 (calculate_distance 1 50 1 50) =
      pyRound2 (calculate_distance 1 50 (1 + 1/1000000000) 50) := by
    rw [calculate_distance_self, calc_tiny, pyRound2_zero, tiny_round2]
  have hsub : List.Sublist
      [⟨⟨5, some 1, some 50, some ("Astoria")⟩, 0, "Astoria"⟩,
       ⟨⟨6, some (1 + 1/1000000000), some 50, some ("Flushing")⟩, 0, "Flushing"⟩]
      (toursWithDistance 1 50
        [⟨5, some 1, some 50, some ("Astoria")⟩,
         ⟨6, some (1 + 1/1000000000), some 50, some ("Flushing")⟩] none) := by
    rw [C9w_kept_eval]
  exact ⟨hne, hround,
    (C9_rounding_before_sort 1 50
      [⟨5, some 1, some 50, some ("Astoria")⟩,
       ⟨6, some (1 + 1/1000000000), some 50, some ("Flushing")⟩] none).2
      _ _ 1 50 (1 + 1/1000000000) 50 rfl rfl rfl rfl hne hround hsub⟩

/-! ### Exception-modelled variants: every Python operation that can raise
(`math.sqrt` on a negative, `math.asin` outside `[-1, 1]`) returns `none`
there; all other arithmetic is total. The totality claim C8 states that
the checked pipeline always returns `some` of the unchecked result. -/

noncomputable section

/-- Models `math.sqrt`, raising (`none`) on negative input. -/
def sqrtChecked (x : ℝ) : Option ℝ :=
  if x < 0 then none else some (Real.sqrt x)

/-- Models `math.asin`, raising (`none`) outside `[-1, 1]`. -/
def asinChecked (x : ℝ) : Option ℝ :=
  if x < -1 ∨ 1 < x then none else some (Real.arcsin x)

/-- Variant of `haversine_distance` with its two `math.sqrt` calls checked. -/
def haversine_distanceChecked (lat1 lon1 lat2 lon2 : ℝ) : Option ℝ :=
  (sqrtChecked (havA lat1 lon1 lat2 lon2)).bind fun sa =>
    (sqrtChecked (1 - havA lat1 lon1 lat2 lon2)).map fun sb =>
      6371000 * (2 * atan2 sa sb)

/-- Variant of `calculate_distance` with `math.sqrt` and `math.asin` checked. -/
def calculate_distanceChecked (lat1 lon1 lat2 lon2 : ℝ) : Option ℝ :=
  (sqrtChecked (havA lat1 lon1 lat2 lon2)).bind fun sa =>
    (asinChecked sa).map fun asn => 2 * asn * 6371000

/-- The guarded pair contribution with the checked distance. -/
def pairDistanceChecked (site1 site2 : Site) : Option ℝ :=
  match site1.latitude, site1.longitude, site2.latitude, site2.longitude with
  | some la1, some lo1, some la2, some lo2 =>
    if la1 ≠ 0 ∧ lo1 ≠ 0 ∧ la2 ≠ 0 ∧ lo2 ≠ 0 then
      haversine_distanceChecked la1 lo1 la2 lo2
    else some 0
  | _, _, _, _ => some 0

/-- The accumulation loop with the checked pair contribution. -/
def totalChecked : List Site → Option ℝ
  | s1 :: s2 :: rest =>
    (pairDistanceChecked s1 s2).bind fun d =>
      (totalChecked (s2 :: rest)).map fun t => d + t
  | _ => some 0

/-- Variant of `calculate_tour_metrics` with the checked distance loop. -/
def calculate_tour_metricsChecked (tour_sites : List TourSite) : Option (ℤ × ℤ) :=
  if (sitesOf tour_sites).length = 0 then some (0, 0)
  else
    (totalChecked (sitesOf tour_sites)).map fun td =>
      (pyRound (td * CITY_GRID_ADJUSTMENT),
       Int.ceil (td * CITY_GRID_ADJUSTMENT / WALKING_SPEED_METERS_PER_MINUTE +
         (totalWords (sitesOf tour_sites) : ℝ) / NARRATION_WORDS_PER_MINUTE))

/-- The nearby-tours loop step with the checked distance. -/
def keepTourChecked (lat lon : ℝ) (max_distance : Option ℝ) (t : TourRec) :
    Option (Option TourEntry) :=
  match t.latitude, t.longitude with
  | some tlat, some tlon =>
    if tlat = 0 ∨ tlon = 0 then some none
    else
      (calculate_distanceChecked lat lon tlat tlon).map fun d =>
        match max_distance with
        | some m => if m < d then none else some ⟨t, pyRound2 d, labelOf t⟩
        | none => some ⟨t, pyRound2 d, labelOf t⟩
  | _, _ => some none

/-- The nearby-tours filtering loop with the checked step. -/
def toursWithDistanceChecked (lat lon : ℝ) :
    List TourRec → Option ℝ → Option (List TourEntry)
  | [], _ => some []
  | t :: rest, maxd =>
    (keepTourChecked lat lon maxd t).bind fun k =>
      (toursWithDistanceChecked lat lon rest maxd).map fun tail =>
        match k with
        | some e => e :: tail
        | none => tail

/-- The whole grouping pipeline with the checked filtering loop. -/
def nearby_toursChecked (lat lon : ℝ)
    (neighborhood_count neighborhood_offset : ℕ) (max_distance : Option ℝ)
    (all_tours : List TourRec) : Option NearbyResult :=
  (toursWithDistanceChecked lat lon all_tours max_distance).map fun kept =>
    { tours := (List.insertionSort (fun a b : TourEntry => a.distance ≤ b.distance)
        kept).filter
        (fun e => e.neighborhood ∈
          pySlice (neighborhoodsOrderedOf (List.insertionSort
            (fun a b : TourEntry => a.distance ≤ b.distance) kept))
            neighborhood_offset (neighborhood_offset + neighborhood_count))
      neighborhoods :=
        pySlice (neighborhoodsOrderedOf (List.insertionSort
          (fun a b : TourEntry => a.distance ≤ b.distance) kept))
          neighborhood_offset (neighborhood_offset + neighborhood_count)
      totalNeighborhoods :=
        (neighborhoodsOrderedOf (List.insertionSort
          (fun a b : TourEntry => a.distance ≤ b.distance) kept)).length
      hasMore := decide (neighborhood_offset + neighborhood_count <
        (neighborhoodsOrderedOf (List.insertionSort
          (fun a b : TourEntry => a.distance ≤ b.distance) kept)).length) }

end

theorem sqrtChecked_eq {x : ℝ} (h : 0 ≤ x) :
    sqrtChecked x = some (Real.sqrt x) := by
  unfold sqrtChecked
  exact if_neg (not_lt.mpr h)

theorem asinChecked_eq {x : ℝ} (h1 : -1 ≤ x) (h2 : x ≤ 1) :
    asinChecked x = some (Real.arcsin x) := by
  unfold asinChecked
  rw [if_neg]
  rintro (h | h) <;> linarith

theorem haversine_distanceChecked_eq (lat1 lon1 lat2 lon2 : ℝ) :
    haversine_distanceChecked lat1 lon1 lat2 lon2 =
      some (haversine_distance lat1 lon1 lat2 lon2) := by
  obtain ⟨h0, h1⟩ := havA_mem lat1 lon1 lat2 lon2
  unfold haversine_distanceChecked
  rw [sqrtChecked_eq h0, sqrtChecked_eq (by linarith : (0:ℝ) ≤ 1 - havA lat1 lon1 lat2 lon2)]
  rw [haversine_distance_a]
  rfl

theorem calculate_distanceChecked_eq (lat1 lon1 lat2 lon2 : ℝ) :
    calculate_distanceChecked lat1 lon1 lat2 lon2 =
      some (calculate_distance lat1 lon1 lat2 lon2) := by
  obtain ⟨h0, h1⟩ := havA_mem lat1 lon1 lat2 lon2
  unfold calculate_distanceChecked
  rw [sqrtChecked_eq h0]
  have hle : Real.sqrt (havA lat1 lon1 lat2 lon2) ≤ 1 :=
    (Real.sqrt_le_sqrt h1).trans_eq Real.sqrt_one
  have hge : -1 ≤ Real.sqrt (havA lat1 lon1 lat2 lon2) := by
    have := Real.sqrt_nonneg (havA lat1 lon1 lat2 lon2)
    linarith
  show (asinChecked (Real.sqrt (havA lat1 lon1 lat2 lon2))).map
      (fun asn => 2 * asn * 6371000) =
    some (calculate_distance lat1 lon1 lat2 lon2)
  rw [asinChecked_eq hge hle, calculate_distance_a]
  rfl

theorem pairDistanceChecked_eq (s1 s2 : Site) :
    pairDistanceChecked s1 s2 = some (pairDistance s1 s2) := by
  rcases s1 with ⟨la1, lo1, d1⟩
  rcases s2 with ⟨la2, lo2, d2⟩
  rcases la1 with _ | x1 <;> rcases lo1 with _ | y1 <;>
    rcases la2 with _ | x2 <;> rcases lo2 with _ | y2 <;>
    try rfl
  show (if x1 ≠ 0 ∧ y1 ≠ 0 ∧ x2 ≠ 0 ∧ y2 ≠ 0 then
      haversine_distanceChecked x1 y1 x2 y2 else some 0) =
    some (if x1 ≠ 0 ∧ y1 ≠ 0 ∧ x2 ≠ 0 ∧ y2 ≠ 0 then
      haversine_distance x1 y1 x2 y2 else 0)
  split_ifs with h
  · exact haversine_distanceChecked_eq x1 y1 x2 y2
  · rfl

theorem totalChecked_eq : ∀ l : List Site,
    totalChecked l = some (totalStraightLineDistance l)
  | [] => rfl
  | [_] => rfl
  | s1 :: s2 :: rest => by
    have ih := totalChecked_eq (s2 :: rest)
    show (pairDistanceChecked s1 s2).bind _ = _
    rw [pairDistanceChecked_eq, ih]
    rfl

theorem calculate_tour_metricsChecked_eq (tour_sites : List TourSite) :
    calculate_tour_metricsChecked tour_sites =
      some (calculate_tour_metrics tour_sites) := by
  unfold calculate_tour_metricsChecked calculate_tour_metrics
  by_cases h : (sitesOf tour_sites).length = 0
  · rw [if_pos h, if_pos h]
  · rw [if_neg h, if_neg h, totalChecked_eq]
    rfl

theorem keepTourChecked_eq (lat lon : ℝ) (maxd : Option ℝ) (t : TourRec) :
    keepTourChecked lat lon maxd t = some (keepTour lat lon maxd t) := by
  rcases t with ⟨i, la, lo, nb⟩
  rcases la with _ | x <;> rcases lo with _ | y
  · rfl
  · rfl
  · rfl
  show (if x = 0 ∨ y = 0 then some none
    else (calculate_distanceChecked lat lon x y).map fun d =>
      match maxd with
      | some m => if m < d then none
          else some ⟨⟨i, some x, some y, nb⟩, pyRound2 d, labelOf ⟨i, some x, some y, nb⟩⟩
      | none => some ⟨⟨i, some x, some y, nb⟩, pyRound2 d, labelOf ⟨i, some x, some y, nb⟩⟩) =
    some (keepTour lat lon maxd ⟨i, some x, some y, nb⟩)
  by_cases hz : x = 0 ∨ y = 0
  · rw [if_pos hz]
    unfold keepTour
    show some none = some (if x = 0 ∨ y = 0 then none else _)
    rw [if_pos hz]
  · rw [if_neg hz, calculate_distanceChecked_eq]
    unfold keepTour
    show some _ = some (if x = 0 ∨ y = 0 then none else _)
    rw [if_neg hz]
    rcases maxd with _ | m <;> rfl

theorem toursWithDistanceChecked_eq (lat lon : ℝ) : ∀ (all : List TourRec)
    (maxd : Option ℝ), toursWithDistanceChecked lat lon all maxd =
      some (toursWithDistance lat lon all maxd)
  | [], _ => rfl
  | t :: rest, maxd => by
    have ih := toursWithDistanceChecked_eq lat lon rest maxd
    show (keepTourChecked lat lon maxd t).bind _ = _
    rw [keepTourChecked_eq, ih]
    rcases hk : keepTour lat lon maxd t with _ | e <;>
      simp [toursWithDistance, List.filterMap_cons, hk]

theorem nearby_toursChecked_eq (lat lon : ℝ) (c o : ℕ) (maxd : Option ℝ)
    (all : List TourRec) :
    nearby_toursChecked lat lon c o maxd all =
      some (nearby_tours lat lon c o maxd all) := by
  unfold nearby_toursChecked
  rw [toursWithDistanceChecked_eq]
  rfl

/-- C8: `haversine_distance`, `calculate_distance`, `calculate_tour_metrics`
and `nearby_tours` are total: for all inputs of the declared shapes —
including out-of-range coordinates, empty sequences, and null or empty
narration text — the exception-modelled pipeline raises nothing and returns
`some` of the unchecked result, missing data degrading to zero-valued
contributions rather than failure. -/
theorem C8_totality :
    (∀ lat1 lon1 lat2 lon2 : ℝ,
      haversine_distanceChecked lat1 lon1 lat2 lon2 =
        some (haversine_distance lat1 lon1 lat2 lon2) ∧
      calculate_distanceChecked lat1 lon1 lat2 lon2 =
        some (calculate_distance lat1 lon1 lat2 lon2)) ∧
    (∀ tour_sites : List TourSite,
      calculate_tour_metricsChecked tour_sites =
        some (calculate_tour_metrics tour_sites)) ∧
    (∀ (lat lon : ℝ) (c o : ℕ) (maxd : Option ℝ) (all : List TourRec),
      nearby_toursChecked lat lon c o maxd all =
        some (nearby_tours lat lon c o maxd all)) :=
  ⟨fun lat1 lon1 lat2 lon2 =>
    ⟨haversine_distanceChecked_eq lat1 lon1 lat2 lon2,
     calculate_distanceChecked_eq lat1 lon1 lat2 lon2⟩,
   calculate_tour_metricsChecked_eq,
   nearby_toursChecked_eq⟩

end Voyana
